import Mathlib

/-!
Verification of the packaging script `setup.py` of the MACREL repository.

The script is embedded shallowly: its single execution is modelled as a pure
function over a build environment that records the outcome of each external
interaction the script performs:
  * reading the version file `macrel/macrel_version.py`;
  * the effect of Python `exec` on the version-file source text (abstracted
    as a function from source text to either an exception or a finite
    name-to-value binding, since the embedding does not interpret Python);
  * reading `README.md` with an explicit utf-8 encoding, and reading it
    again without an encoding (the fallback path);
  * the package list discovered by `setuptools.find_packages()`.

The run produces a trace of file-system events performed by the authored
code together with either an error (an uncaught Python exception) or the
record of keyword arguments passed to `setuptools.setup`.
-/

namespace MacrelSetup

/-- Result of Python `exec` on a source text: either it raises, or it binds
a set of global names to string values (only string-valued bindings matter
to the script, which reads back `__version__`). -/
inductive ExecResult where
  | raises : ExecResult
  | defines : (String → Option String) → ExecResult

/-- The build-time environment: the outcome of each read the script can
attempt, and the result of package discovery. `none` means the
corresponding open/read raises. -/
structure BuildEnv where
  versionFileContents : Option String
  readmeUtf8 : Option String
  readmeNoEnc : Option String
  findPackagesResult : List String

/-- The uncaught exceptions the script can terminate with. -/
inductive SetupError where
  | versionFileUnreadable : SetupError
  | execFailed : SetupError
  | readmeUnreadable : SetupError
  | nameError : String → SetupError
deriving DecidableEq, Repr

/-- File-system events performed by the authored code, plus the final call
into `setuptools.setup`. A `readFile` event records an attempted open/read
of the named path, whether or not it succeeds. -/
inductive Event where
  | readFile : String → Event
  | writeFile : String → Event
  | callSetup : Event
deriving DecidableEq, Repr

/-- The keyword arguments the script passes to `setuptools.setup`
(lines 58-78 of setup.py). -/
structure SetupArgs where
  name : String
  version : String
  description : String
  long_description : String
  long_description_content_type : String
  author : String
  author_email : String
  license : String
  platforms : List String
  classifiers : List String
  packages : List String
  package_dir : List (String × String)
  package_data : List (String × List String)
  zip_safe : Bool
  entry_points : List (String × List String)
  test_suite : String
deriving DecidableEq, Repr

def versionFilePath : String := "macrel/macrel_version.py"

def readmePath : String := "README.md"

/-- The try/except of lines 29-32: read `README.md` with utf-8 encoding;
on any failure, fall back to one read without an encoding. -/
def readLongDescription (env : BuildEnv) : Option String :=
  match env.readmeUtf8 with
  | some s => some s
  | none => env.readmeNoEnc

/-- The read events generated by lines 29-32: one attempt, plus a second
attempt exactly when the first failed. -/
def readmeEvents (env : BuildEnv) : List Event :=
  match env.readmeUtf8 with
  | some _ => [Event.readFile readmePath]
  | none => [Event.readFile readmePath, Event.readFile readmePath]

/-- The classifier list literal of lines 44-56. -/
def classifiers : List String :=
  [ "Development Status :: 4 - Beta",
    "Intended Audience :: Science/Research",
    "Programming Language :: Python",
    "Programming Language :: Python :: 2",
    "Programming Language :: Python :: 2.7",
    "Programming Language :: Python :: 3",
    "Programming Language :: Python :: 3.6",
    "Programming Language :: Python :: 3.7",
    "Programming Language :: R",
    "Operating System :: OS Independent",
    "License :: OSI Approved :: MIT License" ]

/-- The `entry_points` dict literal of lines 72-76. -/
def entryPoints : List (String × List String) :=
  [("console_scripts", ["macrel= macrel.main:main"])]

/-- Split a character list at its first `=`, returning the parts before
and after it. -/
def breakAtEq : List Char → Option (List Char × List Char)
  | [] => none
  | c :: cs =>
    if c = '=' then some ([], cs)
    else
      match breakAtEq cs with
      | none => none
      | some (l, r) => some (c :: l, r)

/-- Strip leading and trailing whitespace from a character list. -/
def trimChars (cs : List Char) : List Char :=
  ((cs.dropWhile Char.isWhitespace).reverse.dropWhile Char.isWhitespace).reverse

/-- How setuptools parses one console-script specification string:
the part before the first `=` is the command name, the part after is the
target, both stripped of surrounding whitespace. -/
def parseEntryPoint (s : String) : Option (String × String) :=
  match breakAtEq s.toList with
  | none => none
  | some (l, r) => some (String.mk (trimChars l), String.mk (trimChars r))

/-- The keyword arguments of the `setuptools.setup` call, as a function of
the three data computed earlier in the script: the version, the long
description, and the discovered packages. Everything else is a literal. -/
def mkSetupArgs (version ld : String) (pkgs : List String) : SetupArgs :=
  { name := "macrel",
    version := version,
    description := "MACREL",
    long_description := ld,
    long_description_content_type := "text/markdown",
    author := "Celio Dias Santos-Junior and Luis Pedro Coelho",
    author_email := "luispedro@big-data-biology.org",
    license := "MIT",
    platforms := ["Any"],
    classifiers := classifiers,
    packages := pkgs,
    package_dir := [("macrel", "macrel/")],
    package_data := [("macrel", ["data/*"])],
    zip_safe := false,
    entry_points := entryPoints,
    test_suite := "nose.collector" }

/-- The whole script, parameterised by the `exec` semantics `ex` and the
environment. Steps, in source order:
line 26: open and read the version file (failure is uncaught);
lines 26-27: `exec` its contents (an exception is uncaught);
lines 29-32: read the long description with the fallback;
line 42: `find_packages()`;
lines 58-78: evaluate the arguments — looking up `__version__`, a
`NameError` if `exec` did not bind it — and call `setuptools.setup`. -/
def runSetup (ex : String → ExecResult) (env : BuildEnv) :
    List Event × Except SetupError SetupArgs :=
  match env.versionFileContents with
  | none => ([Event.readFile versionFilePath], Except.error SetupError.versionFileUnreadable)
  | some src =>
    match ex src with
    | ExecResult.raises =>
        ([Event.readFile versionFilePath], Except.error SetupError.execFailed)
    | ExecResult.defines names =>
      match readLongDescription env with
      | none =>
          (Event.readFile versionFilePath :: readmeEvents env,
           Except.error SetupError.readmeUnreadable)
      | some ld =>
        match names "__version__" with
        | none =>
            (Event.readFile versionFilePath :: readmeEvents env,
             Except.error (SetupError.nameError "__version__"))
        | some v =>
            (Event.readFile versionFilePath :: readmeEvents env ++ [Event.callSetup],
             Except.ok (mkSetupArgs v ld env.findPackagesResult))

/-- Modelled from the spec: the repository's version file
`macrel/macrel_version.py` is not part of the supplied source; the spec
states that the version string it defines is non-empty, so executing it
binds `__version__` only to a non-empty string. -/
def repoVersionNonEmpty (names : String → Option String) : Prop :=
  ∀ v, names "__version__" = some v → v ≠ ""

/-- Modelled from the spec: the repository file `README.md` is not part of
the supplied source; the spec states that the long-description text is
non-empty after either read path succeeds, so any successful read of the
file (on either path) returns non-empty text. -/
def repoReadmeNonEmpty (env : BuildEnv) : Prop :=
  (∀ s, env.readmeUtf8 = some s → s ≠ "") ∧
  (∀ s, env.readmeNoEnc = some s → s ≠ "")

/-- The package list passed to setup depends on the build-time filesystem:
two runs over different filesystems can pass different package lists. -/
def packagesVaryWithFS : Prop :=
  ∃ ex e1 e2 t1 t2 a1 a2, runSetup ex e1 = (t1, Except.ok a1) ∧
    runSetup ex e2 = (t2, Except.ok a2) ∧ a1.packages ≠ a2.packages

/-- The package-data mapping passed to setup depends on the build-time
filesystem: two runs over different filesystems can pass different
package-data mappings. -/
def packageDataVariesWithFS : Prop :=
  ∃ ex e1 e2 t1 t2 a1 a2, runSetup ex e1 = (t1, Except.ok a1) ∧
    runSetup ex e2 = (t2, Except.ok a2) ∧ a1.package_data ≠ a2.package_data

/-- A sample binding produced by executing the version file. -/
def namesSample : String → Option String :=
  fun n => if n = "__version__" then some "0.5.0" else none

/-- A sample `exec` semantics: the version file binds `__version__`. -/
def exSample : String → ExecResult :=
  fun _ => ExecResult.defines namesSample

/-- A sample `exec` semantics in which the version file defines no name. -/
def exNoVersionName : String → ExecResult :=
  fun _ => ExecResult.defines (fun _ => none)

/-- A sample environment in which every read succeeds. -/
def envSample : BuildEnv :=
  { versionFileContents := some "version source",
    readmeUtf8 := some "MACREL readme",
    readmeNoEnc := some "MACREL readme",
    findPackagesResult := ["macrel"] }

/-- A second sample environment, differing from `envSample` only in the
discovered packages. -/
def envSample2 : BuildEnv :=
  { versionFileContents := some "version source",
    readmeUtf8 := some "MACREL readme",
    readmeNoEnc := some "MACREL readme",
    findPackagesResult := ["macrel", "macrel.extra"] }

/-- An environment whose fields are literally those of `envSample`. -/
def envSampleCopy : BuildEnv :=
  { versionFileContents := some "version source",
    readmeUtf8 := some "MACREL readme",
    readmeNoEnc := some "MACREL readme",
    findPackagesResult := ["macrel"] }

def argsSample : SetupArgs := mkSetupArgs "0.5.0" "MACREL readme" ["macrel"]

def argsSample2 : SetupArgs := mkSetupArgs "0.5.0" "MACREL readme" ["macrel", "macrel.extra"]

def trSample : List Event :=
  [Event.readFile versionFilePath, Event.readFile readmePath, Event.callSetup]

/-- An environment in which the version file cannot be read. -/
def envNoVersion : BuildEnv :=
  { versionFileContents := none,
    readmeUtf8 := some "MACREL readme",
    readmeNoEnc := some "MACREL readme",
    findPackagesResult := ["macrel"] }

/-- An environment in which `README.md` does not exist: both read paths
fail. -/
def envNoReadme : BuildEnv :=
  { versionFileContents := some "version source",
    readmeUtf8 := none,
    readmeNoEnc := none,
    findPackagesResult := ["macrel"] }

example : runSetup exSample envSample = (trSample, Except.ok argsSample) := by rfl

example : parseEntryPoint "macrel= macrel.main:main" = some ("macrel", "macrel.main:main") := by
  decide

/-- Inversion: a run that reaches `setuptools.setup` read the version file,
executed it without an exception, obtained a long description, found a
binding for `__version__`, and passed exactly the arguments built by
`mkSetupArgs`. -/
theorem runSetup_ok_inv (ex : String → ExecResult) (env : BuildEnv)
    (tr : List Event) (args : SetupArgs)
    (h : runSetup ex env = (tr, Except.ok args)) :
    ∃ src names ld v, env.versionFileContents = some src ∧
      ex src = ExecResult.defines names ∧
      readLongDescription env = some ld ∧
      names "__version__" = some v ∧
      args = mkSetupArgs v ld env.findPackagesResult ∧
      tr = Event.readFile versionFilePath :: readmeEvents env ++ [Event.callSetup] := by
  unfold runSetup at h
  split at h
  · simp at h
  next src hv =>
    split at h
    · simp at h
    next names hex =>
      split at h
      · simp at h
      next ld hld =>
        split at h
        · simp at h
        next v hnv =>
          rw [Prod.mk.injEq] at h
          obtain ⟨h1, h2⟩ := h
          injection h2 with hargs
          exact ⟨src, names, ld, v, hv, hex, hld, hnv, hargs.symm, h1.symm⟩

/-- C1: whenever the script reaches the `setuptools.setup` call, the
`entry_points` argument declares exactly one section, `console_scripts`,
whose single specification parses to a command named `macrel` dispatching
to `main` in module `macrel.main`; no other console command is declared. -/
theorem c1_single_entry_point (ex : String → ExecResult) (env : BuildEnv)
    (tr : List Event) (args : SetupArgs)
    (h : runSetup ex env = (tr, Except.ok args)) :
    args.entry_points = [("console_scripts", ["macrel= macrel.main:main"])] ∧
    List.map parseEntryPoint ["macrel= macrel.main:main"] =
      [some ("macrel", "macrel.main:main")] := by
  obtain ⟨src, names, ld, v, _, _, _, _, hargs, _⟩ := runSetup_ok_inv ex env tr args h
  subst hargs
  exact ⟨rfl, by decide⟩

/-- Witness for C1 at a concrete successful run. -/
theorem c1_single_entry_point_witness :
    runSetup exSample envSample = (trSample, Except.ok argsSample) ∧
    argsSample.entry_points = [("console_scripts", ["macrel= macrel.main:main"])] ∧
    List.map parseEntryPoint ["macrel= macrel.main:main"] =
      [some ("macrel", "macrel.main:main")] :=
  ⟨rfl, (c1_single_entry_point exSample envSample trSample argsSample rfl).1,
    (c1_single_entry_point exSample envSample trSample argsSample rfl).2⟩

/-- C2: on every run that reaches `setuptools.setup` (spec-modelled: the
repository's version file binds `__version__` only to a non-empty string),
the version argument equals the value `exec` bound to `__version__` and is
non-empty. -/
theorem c2_version_nonempty (ex : String → ExecResult) (env : BuildEnv)
    (src : String) (names : String → Option String)
    (tr : List Event) (args : SetupArgs)
    (hsrc : env.versionFileContents = some src)
    (hex : ex src = ExecResult.defines names)
    (hrepo : repoVersionNonEmpty names)
    (h : runSetup ex env = (tr, Except.ok args)) :
    names "__version__" = some args.version ∧ args.version ≠ "" := by
  obtain ⟨src1, names1, ld, v, hv1, hex1, hld, hnv, hargs, _⟩ := runSetup_ok_inv ex env tr args h
  rw [hsrc] at hv1
  injection hv1 with hsrceq
  rw [← hsrceq] at hex1
  rw [hex] at hex1
  injection hex1 with hnames
  subst hnames
  subst hargs
  exact ⟨hnv, hrepo v hnv⟩

/-- Witness for C2 at a concrete successful run. -/
theorem c2_version_nonempty_witness :
    repoVersionNonEmpty namesSample ∧
    namesSample "__version__" = some argsSample.version ∧ argsSample.version ≠ "" := by
  have hrepo : repoVersionNonEmpty namesSample := by
    intro v hv
    rw [show namesSample "__version__" = some "0.5.0" from rfl] at hv
    injection hv with hv
    rw [← hv]
    decide
  exact ⟨hrepo, c2_version_nonempty exSample envSample "version source" namesSample
    trSample argsSample rfl rfl hrepo rfl⟩

/-- C3: the README read of lines 29-32 tries the utf-8 read first; if it
succeeds its text is the long description, independently of the fallback
read, and only one read event occurs; if it fails, exactly one retry
without an encoding is performed and its outcome is the result; on a
successful run the text obtained this way is the `long_description`
argument. -/
theorem c3_readme_fallback (env : BuildEnv) :
    (∀ s, env.readmeUtf8 = some s →
      readLongDescription env = some s ∧
      (∀ x, readLongDescription { env with readmeNoEnc := x } = some s) ∧
      readmeEvents env = [Event.readFile readmePath]) ∧
    (env.readmeUtf8 = none →
      readLongDescription env = env.readmeNoEnc ∧
      readmeEvents env = [Event.readFile readmePath, Event.readFile readmePath]) ∧
    ∀ ex tr args, runSetup ex env = (tr, Except.ok args) →
      readLongDescription env = some args.long_description := by
  refine ⟨?_, ?_, ?_⟩
  · intro s hs
    refine ⟨?_, ?_, ?_⟩
    · unfold readLongDescription; rw [hs]
    · intro x; unfold readLongDescription; simp [hs]
    · unfold readmeEvents; rw [hs]
  · intro hs
    constructor
    · unfold readLongDescription; rw [hs]
    · unfold readmeEvents; rw [hs]
  · intro ex tr args h
    obtain ⟨src, names, ld, v, _, _, hld, _, hargs, _⟩ := runSetup_ok_inv ex env tr args h
    subst hargs
    exact hld

/-- Witness for C3 at a concrete environment whose utf-8 read succeeds. -/
theorem c3_readme_fallback_witness :
    readLongDescription envSample = some "MACREL readme" ∧
    readLongDescription { envSample with readmeNoEnc := none } = some "MACREL readme" ∧
    readmeEvents envSample = [Event.readFile readmePath] ∧
    readLongDescription envSample = some argsSample.long_description :=
  ⟨((c3_readme_fallback envSample).1 "MACREL readme" rfl).1,
   ((c3_readme_fallback envSample).1 "MACREL readme" rfl).2.1 none,
   ((c3_readme_fallback envSample).1 "MACREL readme" rfl).2.2,
   (c3_readme_fallback envSample).2.2 exSample trSample argsSample rfl⟩

/-- C4: (spec-modelled: the repository README is non-empty, so any
successful read of it returns non-empty text) whenever either read path
yields a long description, that text is non-empty. -/
theorem c4_long_description_nonempty (env : BuildEnv) (s : String)
    (hrepo : repoReadmeNonEmpty env)
    (hs : readLongDescription env = some s) : s ≠ "" := by
  unfold readLongDescription at hs
  cases h : env.readmeUtf8 with
  | some t =>
    rw [h] at hs
    injection hs with ht
    rw [← ht]
    exact hrepo.1 t h
  | none =>
    rw [h] at hs
    exact hrepo.2 s hs

/-- Witness for C4 at a concrete environment. -/
theorem c4_long_description_nonempty_witness :
    repoReadmeNonEmpty envSample ∧
    readLongDescription envSample = some "MACREL readme" ∧
    "MACREL readme" ≠ "" := by
  have hrepo : repoReadmeNonEmpty envSample := by
    constructor
    · intro s hs
      injection hs with hs
      rw [← hs]
      decide
    · intro s hs
      injection hs with hs
      rw [← hs]
      decide
  exact ⟨hrepo, rfl, c4_long_description_nonempty envSample "MACREL readme" hrepo rfl⟩

/-- C5 counterexample: the claim that both the package list and the
package-data mapping depend on the build-time filesystem is false — the
package-data mapping passed to setup is the fixed literal of lines 38-40
and never varies. -/
theorem c5_counterexample : (packagesVaryWithFS ∧ packageDataVariesWithFS) = False := by
  refine eq_false ?_
  rintro ⟨-, ex, e1, e2, t1, t2, a1, a2, h1, h2, hne⟩
  obtain ⟨_, _, _, _, _, _, _, _, ha1, _⟩ := runSetup_ok_inv ex e1 t1 a1 h1
  obtain ⟨_, _, _, _, _, _, _, _, ha2, _⟩ := runSetup_ok_inv ex e2 t2 a2 h2
  subst ha1
  subst ha2
  exact hne rfl

/-- C5 amended: the package list is computed by filesystem discovery
(`find_packages()`) and can vary with the filesystem, while the
package-data mapping is the fixed literal mapping `macrel` to `data/*`. -/
theorem c5_amended_discovery : packagesVaryWithFS ∧
    ∀ ex env tr args, runSetup ex env = (tr, Except.ok args) →
      args.packages = env.findPackagesResult ∧
      args.package_data = [("macrel", ["data/*"])] := by
  constructor
  · exact ⟨exSample, envSample, envSample2, trSample, trSample, argsSample, argsSample2,
      rfl, rfl, by decide⟩
  · intro ex env tr args h
    obtain ⟨_, _, _, _, _, _, _, _, hargs, _⟩ := runSetup_ok_inv ex env tr args h
    subst hargs
    exact ⟨rfl, rfl⟩

/-- Witness for the amended C5 at a concrete successful run. -/
theorem c5_amended_discovery_witness :
    argsSample.packages = envSample.findPackagesResult ∧
    argsSample.package_data = [("macrel", ["data/*"])] :=
  c5_amended_discovery.2 exSample envSample trSample argsSample rfl

/-- C6: in every run, every file the authored code reads is either the
version file or `README.md`, and the authored code writes no file. -/
theorem c6_io_frame (ex : String → ExecResult) (env : BuildEnv) :
    (∀ p, Event.readFile p ∈ (runSetup ex env).1 →
      p = versionFilePath ∨ p = readmePath) ∧
    ∀ p, Event.writeFile p ∉ (runSetup ex env).1 := by
  have hr : ∀ e, e ∈ readmeEvents env → e = Event.readFile readmePath := by
    intro e he
    unfold readmeEvents at he
    split at he <;> simp_all
  have hmain : ∀ e, e ∈ (runSetup ex env).1 →
      e = Event.readFile versionFilePath ∨ e = Event.readFile readmePath ∨
      e = Event.callSetup := by
    intro e he
    unfold runSetup at he
    split at he
    · simp at he; simp [he]
    · split at he
      · simp at he; simp [he]
      · split at he
        · simp at he
          rcases he with he | he
          · simp [he]
          · exact Or.inr (Or.inl (hr e he))
        · split at he
          · simp at he
            rcases he with he | he
            · simp [he]
            · exact Or.inr (Or.inl (hr e he))
          · simp at he
            rcases he with he | he | he
            · simp [he]
            · exact Or.inr (Or.inl (hr e he))
            · simp [he]
  constructor
  · intro p hp
    rcases hmain (Event.readFile p) hp with h | h | h
    · injection h with h; exact Or.inl h
    · injection h with h; exact Or.inr h
    · exact absurd h (by simp)
  · intro p hp
    rcases hmain (Event.writeFile p) hp with h | h | h <;> simp at h

/-- Witness for C6 at a concrete run. -/
theorem c6_io_frame_witness :
    Event.readFile readmePath ∈ (runSetup exSample envSample).1 ∧
    (readmePath = versionFilePath ∨ readmePath = readmePath) ∧
    Event.writeFile readmePath ∉ (runSetup exSample envSample).1 :=
  ⟨by decide, (c6_io_frame exSample envSample).1 readmePath (by decide),
   (c6_io_frame exSample envSample).2 readmePath⟩

/-- C7: the README fallback is the only recovery logic: a failure to read
the version file, an exception raised by `exec`, or a failure of the
fallback README read itself each terminates the run with an error and no
further retry — the terminal trace shows no additional read attempt. -/
theorem c7_failures_propagate (ex : String → ExecResult) (env : BuildEnv) :
    (env.versionFileContents = none →
      runSetup ex env = ([Event.readFile versionFilePath],
        Except.error SetupError.versionFileUnreadable)) ∧
    (∀ src, env.versionFileContents = some src → ex src = ExecResult.raises →
      runSetup ex env = ([Event.readFile versionFilePath],
        Except.error SetupError.execFailed)) ∧
    ∀ src names, env.versionFileContents = some src →
      ex src = ExecResult.defines names →
      env.readmeUtf8 = none → env.readmeNoEnc = none →
      runSetup ex env = ([Event.readFile versionFilePath, Event.readFile readmePath,
        Event.readFile readmePath], Except.error SetupError.readmeUnreadable) := by
  refine ⟨?_, ?_, ?_⟩
  · intro hv
    unfold runSetup
    rw [hv]
  · intro src hv hex
    unfold runSetup
    rw [hv]
    simp only [hex]
  · intro src names hv hex h1 h2
    have hld : readLongDescription env = none := by
      unfold readLongDescription
      rw [h1]
      exact h2
    have hev : readmeEvents env = [Event.readFile readmePath, Event.readFile readmePath] := by
      unfold readmeEvents
      rw [h1]
    unfold runSetup
    rw [hv]
    simp only [hex, hld, hev]

/-- Witness for C7 across the three failure paths, at concrete inputs. -/
theorem c7_failures_propagate_witness :
    runSetup exSample envNoVersion = ([Event.readFile versionFilePath],
      Except.error SetupError.versionFileUnreadable) ∧
    runSetup (fun _ => ExecResult.raises) envSample = ([Event.readFile versionFilePath],
      Except.error SetupError.execFailed) ∧
    runSetup exSample envNoReadme = ([Event.readFile versionFilePath,
      Event.readFile readmePath, Event.readFile readmePath],
      Except.error SetupError.readmeUnreadable) :=
  ⟨(c7_failures_propagate exSample envNoVersion).1 rfl,
   (c7_failures_propagate (fun _ => ExecResult.raises) envSample).2.1 "version source" rfl rfl,
   (c7_failures_propagate exSample envNoReadme).2.2 "version source" namesSample rfl rfl rfl rfl⟩

/-- C8: when `README.md` does not exist, both read attempts fail: the bare
except still enters the fallback (a second read attempt appears in the
trace), the fallback fails identically, and the run terminates with an
uncaught error. -/
theorem c8_missing_readme (ex : String → ExecResult) (env : BuildEnv)
    (src : String) (names : String → Option String)
    (hsrc : env.versionFileContents = some src)
    (hex : ex src = ExecResult.defines names)
    (h1 : env.readmeUtf8 = none) (h2 : env.readmeNoEnc = none) :
    readmeEvents env = [Event.readFile readmePath, Event.readFile readmePath] ∧
    runSetup ex env = ([Event.readFile versionFilePath, Event.readFile readmePath,
      Event.readFile readmePath], Except.error SetupError.readmeUnreadable) := by
  have hev : readmeEvents env = [Event.readFile readmePath, Event.readFile readmePath] := by
    unfold readmeEvents
    rw [h1]
  have hld : readLongDescription env = none := by
    unfold readLongDescription
    rw [h1]
    exact h2
  refine ⟨hev, ?_⟩
  unfold runSetup
  rw [hsrc]
  simp only [hex, hld, hev]

/-- Witness for C8 at a concrete environment without a README. -/
theorem c8_missing_readme_witness :
    readmeEvents envNoReadme = [Event.readFile readmePath, Event.readFile readmePath] ∧
    runSetup exSample envNoReadme = ([Event.readFile versionFilePath,
      Event.readFile readmePath, Event.readFile readmePath],
      Except.error SetupError.readmeUnreadable) :=
  c8_missing_readme exSample envNoReadme "version source" namesSample rfl rfl rfl rfl

/-- C9: when `exec` of the version file raises nothing, the run reaches
`setuptools.setup` only if `__version__` was bound (and then the version
argument is that binding); if `__version__` is unbound the run terminates
with a NameError and `setuptools.setup` is never called. -/
theorem c9_version_name_required (ex : String → ExecResult) (env : BuildEnv)
    (src : String) (names : String → Option String)
    (hsrc : env.versionFileContents = some src)
    (hex : ex src = ExecResult.defines names) :
    (∀ tr args, runSetup ex env = (tr, Except.ok args) →
      names "__version__" = some args.version) ∧
    ∀ ld, readLongDescription env = some ld → names "__version__" = none →
      runSetup ex env = (Event.readFile versionFilePath :: readmeEvents env,
        Except.error (SetupError.nameError "__version__")) ∧
      Event.callSetup ∉ (runSetup ex env).1 := by
  constructor
  · intro tr args h
    obtain ⟨src1, names1, ld, v, hv1, hex1, hld, hnv, hargs, _⟩ :=
      runSetup_ok_inv ex env tr args h
    rw [hsrc] at hv1
    injection hv1 with hsrceq
    rw [← hsrceq] at hex1
    rw [hex] at hex1
    injection hex1 with hnames
    subst hnames
    subst hargs
    exact hnv
  · intro ld hld hnv
    have hrun : runSetup ex env = (Event.readFile versionFilePath :: readmeEvents env,
        Except.error (SetupError.nameError "__version__")) := by
      unfold runSetup
      rw [hsrc]
      simp only [hex, hld, hnv]
    refine ⟨hrun, ?_⟩
    rw [hrun]
    have hr : ∀ e, e ∈ readmeEvents env → e = Event.readFile readmePath := by
      intro e he
      unfold readmeEvents at he
      split at he <;> simp_all
    intro hmem
    simp only [List.mem_cons] at hmem
    rcases hmem with h | h
    · simp at h
    · have := hr Event.callSetup h
      simp at this

/-- Witness for C9 at a concrete run whose version file binds nothing. -/
theorem c9_version_name_required_witness :
    runSetup exNoVersionName envSample = (Event.readFile versionFilePath ::
      readmeEvents envSample, Except.error (SetupError.nameError "__version__")) ∧
    Event.callSetup ∉ (runSetup exNoVersionName envSample).1 :=
  (c9_version_name_required exNoVersionName envSample "version source" (fun _ => none)
    rfl rfl).2 "MACREL readme" rfl rfl

/-- C10: the configuration is deterministic in the inputs: two runs over
identical version-file contents, identical README read outcomes and an
identical package tree produce identical traces and identical setup
arguments in every field; moreover `zip_safe` is always `false`. -/
theorem c10_deterministic (ex : String → ExecResult) (e1 e2 : BuildEnv)
    (h1 : e1.versionFileContents = e2.versionFileContents)
    (h2 : e1.readmeUtf8 = e2.readmeUtf8)
    (h3 : e1.readmeNoEnc = e2.readmeNoEnc)
    (h4 : e1.findPackagesResult = e2.findPackagesResult) :
    runSetup ex e1 = runSetup ex e2 ∧
    ∀ tr args, runSetup ex e1 = (tr, Except.ok args) → args.zip_safe = false := by
  have he : e1 = e2 := by
    cases e1
    cases e2
    simp_all
  subst he
  refine ⟨rfl, ?_⟩
  intro tr args h
  obtain ⟨_, _, _, _, _, _, _, _, hargs, _⟩ := runSetup_ok_inv ex e1 tr args h
  subst hargs
  rfl

/-- Witness for C10 at two concrete environments with identical fields. -/
theorem c10_deterministic_witness :
    runSetup exSample envSample = runSetup exSample envSampleCopy ∧
    argsSample.zip_safe = false :=
  ⟨(c10_deterministic exSample envSample envSampleCopy rfl rfl rfl rfl).1,
   (c10_deterministic exSample envSample envSampleCopy rfl rfl rfl rfl).2
     trSample argsSample rfl⟩

end MacrelSetup
